import Mathlib

/-!
Shallow embedding of the metadata resolution and caching engine of the
repository (the `infoextract` module): cache lookup, missing-field
detection, adapter dispatch, merge, cache write-back and quota-aware
degradation.  Collaborators whose code is not part of the sources
(the storage layer, the Video class, the concrete provider adapters and
the supported-mime-type test) are modelled from the specification as
parameters of an environment; the functions `getCachedVideo`,
`updateCache`, `getServiceAdapter`, `getServiceAdapterForURL`,
`getVideoInfo`, `resolveVideoQuery` and `searchVideos` are translated
line by line from the source.  Adapter fetch invocations and cache
writes are made observable through an explicit trace.
-/

namespace InfoExtract

/-- Metadata fields of the provider-independent video schema
(title, duration, thumbnail, mime type, etc.). -/
inductive VideoField where
  | title
  | description
  | thumbnail
  | length
  | mime
deriving DecidableEq, Repr

/-- Modelled from the spec: the canonical normalized Video Record (the
`Video` class of `common/video` is not among the sources).  Identity is
the pair `(service, id)`; every metadata field is optional, `none`
standing for a JavaScript property that is absent or undefined. -/
structure Video where
  service : String
  id : String
  fields : VideoField → Option String

/-- JavaScript `video.hasOwnProperty(p)` on a record whose optional
metadata properties are exactly the `some` fields. -/
def Video.hasOwnProperty (v : Video) (p : VideoField) : Bool :=
  (v.fields p).isSome

/-- Modelled from the spec: `Video.merge` of `common/video` is not among
the sources.  Merge is right-biased: fields present in the newer record
overwrite the older; absent fields in the newer record fall back to the
older. -/
def Video.merge (older newer : Video) : Video :=
  { service := newer.service
    id := newer.id
    fields := fun k => (newer.fields k).or (older.fields k) }

/-- Errors crossing the resolver boundary.  `unsupportedMimeType` and
`outOfQuota` model the two exception classes the source imports;
`typeError` models the JavaScript TypeError raised when a method is
called on `undefined`; `unresolvableReference` is the typed error the
spec demands for a failed adapter lookup (the source never constructs
it); `storageError` and `providerError` stand for any other failure of
the cache store or of an adapter. -/
inductive Err where
  | unsupportedMimeType (mime : String)
  | outOfQuota
  | typeError (msg : String)
  | unresolvableReference (msg : String)
  | storageError (msg : String)
  | providerError (msg : String)
deriving DecidableEq, Repr

/-- One invocation of `adapter.fetchVideoInfo(id, fields)`, recorded so
that theorems can count adapter calls. -/
structure FetchCall where
  serviceId : String
  id : String
  fields : List VideoField
deriving DecidableEq, Repr

/-- One write issued to the cache store: `storage.updateVideoInfo`
(single record) or `storage.updateManyVideoInfo` (batch). -/
inductive WriteOp where
  | one (video : Video)
  | many (videos : List Video)

/-- Observable effects of a resolver run: the adapter fetch calls made
and the cache writes issued, in order. -/
structure Trace where
  fetchCalls : List FetchCall
  writes : List WriteOp

def Trace.empty : Trace := ⟨[], []⟩

/-- Modelled from the spec: the provider adapter capability contract of
section 4.1 (the concrete adapter implementations under `services/` are
not among the sources).  Fallible operations return `Except Err`. -/
structure Adapter where
  serviceId : String
  canHandleLink : String → Bool
  isCollectionURL : String → Bool
  getVideoId : String → String
  resolveURL : String → Except Err (List Video)
  fetchVideoInfo : String → List VideoField → Except Err Video
  searchVideos : String → Except Err (List Video)

/-- Modelled from the spec: the cache store collaborator (`storage` is
not among the sources).  `getVideoInfo` reads the record cached for a
key and may fail; `getVideoInfoFields` returns the declared schema of a
service. -/
structure Storage where
  getVideoInfo : String → String → Except Err Video
  getVideoInfoFields : String → List VideoField

/-- The ambient collaborators of the module: the configured adapter
list, the storage layer, the supported-mime-type test (the source calls
`this.isSupportedMimeType`, whose definition is not among the sources;
modelled from the spec as membership in the supported set) and the URL
parser (`URL.parse(str).host` of the node standard library). -/
structure Env where
  adapters : List Adapter
  storage : Storage
  isSupportedMimeType : String → Bool
  parseHost : String → Option String

/-- Source `isURL`: `URL.parse(str).host != null`. -/
def isURL (env : Env) (str : String) : Bool :=
  (env.parseHost str).isSome

/-- Source `getServiceAdapter`:
`adapters.find(adapter => adapter.serviceId === service)`.
JavaScript `find` yields `undefined` when nothing matches, modelled by
`Option`. -/
def getServiceAdapter (env : Env) (service : String) : Option Adapter :=
  env.adapters.find? (fun adapter => adapter.serviceId == service)

/-- Source `getServiceAdapterForURL`:
`adapters.find(adapter => adapter.canHandleLink(url))`. -/
def getServiceAdapterForURL (env : Env) (url : String) : Option Adapter :=
  env.adapters.find? (fun adapter => adapter.canHandleLink url)

/-- Source comparison `missingInfo === 0` (line 67).  JavaScript strict
equality between an array and the number 0 is false for every array,
whatever its length, so this test never succeeds. -/
def arrayStrictEqZero (_ : List VideoField) : Bool :=
  false

/-- Source `getCachedVideo`: read the cached record, construct a Video
from it (`new Video(result)`, modelled as the record itself since the
storage model already yields normalized records), compute the schema
fields the record is missing, and reject an unplayable mime type.  The
catch clause of the source logs and rethrows, so every error
propagates unchanged.  The test `video.mime && !this.isSupportedMimeType(video.mime)`
short-circuits when `video.mime` is falsy, i.e. absent, undefined or
the empty string. -/
def getCachedVideo (env : Env) (service videoId : String) :
    Except Err (Video × List VideoField) :=
  match env.storage.getVideoInfo service videoId with
  | .error e => .error e
  | .ok result =>
    let video : Video := result
    let missingInfo :=
      (env.storage.getVideoInfoFields video.service).filter
        (fun p => !(video.hasOwnProperty p))
    match video.fields VideoField.mime with
    | some m =>
      if m != "" && !(env.isSupportedMimeType m) then
        .error (.unsupportedMimeType m)
      else
        .ok (video, missingInfo)
    | none => .ok (video, missingInfo)

/-- Source `updateCache`: `Array.isArray(videos)` dispatches between
`storage.updateManyVideoInfo` and `storage.updateVideoInfo`; the write
issued is recorded as a trace entry. -/
def updateCache : Video ⊕ List Video → WriteOp
  | .inl video => WriteOp.one video
  | .inr videos => WriteOp.many videos

/-- Source `getVideoInfo`: adapter lookup, cached read, dead fast-path
test `missingInfo === 0`, adapter fetch of the missing fields, merge,
write-back, and the quota-exceeded fallback.  Calling
`adapter.fetchVideoInfo` when the lookup found no adapter is the
JavaScript TypeError of dereferencing `undefined`. -/
def getVideoInfo (env : Env) (service videoId : String) :
    Except Err Video × Trace :=
  let adapter? := getServiceAdapter env service
  match getCachedVideo env service videoId with
  | .error e => (.error e, Trace.empty)
  | .ok (cachedVideo, missingInfo) =>
    if arrayStrictEqZero missingInfo then
      (.ok cachedVideo, Trace.empty)
    else
      match adapter? with
      | none => (.error (.typeError "adapter.fetchVideoInfo"), Trace.empty)
      | some adapter =>
        let call : FetchCall := ⟨adapter.serviceId, cachedVideo.id, missingInfo⟩
        match adapter.fetchVideoInfo cachedVideo.id missingInfo with
        | .ok fetchedVideo =>
          let video := Video.merge cachedVideo fetchedVideo
          (.ok video, ⟨[call], [updateCache (.inl video)]⟩)
        | .error e =>
          match e with
          | .outOfQuota =>
            if missingInfo.length <
                (env.storage.getVideoInfoFields cachedVideo.service).length then
              (.ok cachedVideo, ⟨[call], []⟩)
            else
              (.error Err.outOfQuota, ⟨[call], []⟩)
          | e => (.error e, ⟨[call], []⟩)

/-- Source `searchVideos`: look the adapter up by service id and
delegate; with no adapter found, `adapter.searchVideos` is a TypeError
on `undefined`. -/
def searchVideos (env : Env) (service query : String) :
    Except Err (List Video) :=
  match getServiceAdapter env service with
  | none => .error (.typeError "adapter.searchVideos")
  | some adapter => adapter.searchVideos query

/-- Result of `resolveVideoQuery`: the single-item branch returns one
record, the collection and search branches an array. -/
inductive QueryResult where
  | single (video : Video)
  | batch (videos : List Video)

/-- Source `resolveVideoQuery`: URL inputs go through the URL adapter
lookup (a single item delegating to `getVideoInfo`, a collection through
`adapter.resolveURL`); other inputs go through `searchVideos`.  The
collection and search branches push their results and call
`updateCache(results)` before returning.  With no adapter found for a
URL, `adapter.isCollectionURL` is a TypeError on `undefined`. -/
def resolveVideoQuery (env : Env) (query searchService : String) :
    Except Err QueryResult × Trace :=
  if isURL env query then
    match getServiceAdapterForURL env query with
    | none => (.error (.typeError "adapter.isCollectionURL"), Trace.empty)
    | some adapter =>
      if !(adapter.isCollectionURL query) then
        match getVideoInfo env adapter.serviceId (adapter.getVideoId query) with
        | (.ok video, t) => (.ok (.single video), t)
        | (.error e, t) => (.error e, t)
      else
        match adapter.resolveURL query with
        | .error e => (.error e, Trace.empty)
        | .ok fetchResults =>
          let results := fetchResults
          (.ok (.batch results), ⟨[], [updateCache (.inr results)]⟩)
  else
    match searchVideos env searchService query with
    | .error e => (.error e, Trace.empty)
    | .ok searchResults =>
      let results := searchResults
      (.ok (.batch results), ⟨[], [updateCache (.inr results)]⟩)

/-- Upsert one record into the cache store, keyed by `(service, id)`:
the eventual effect of `storage.updateVideoInfo`. -/
def Storage.upsert (st : Storage) (v : Video) : Storage :=
  { st with
    getVideoInfo := fun s i =>
      if s = v.service ∧ i = v.id then .ok v else st.getVideoInfo s i }

/-- Apply one issued write to the cache store. -/
def Storage.applyWrite : Storage → WriteOp → Storage
  | st, .one v => st.upsert v
  | st, .many vs => vs.foldl Storage.upsert st

/-- Apply every write issued in a trace to the cache store, in order. -/
def Storage.applyTrace (st : Storage) (t : Trace) : Storage :=
  t.writes.foldl Storage.applyWrite st

/-- The environment after the writes a run issued have completed. -/
def Env.afterTrace (env : Env) (t : Trace) : Env :=
  { env with storage := env.storage.applyTrace t }

/-! Concrete sample environments used by witnesses and counterexamples. -/

/-- A cached record holding only its title: one populated schema field. -/
def videoPartial : Video :=
  ⟨"svc", "vid", fun k => match k with | .title => some "t" | _ => none⟩

/-- A cached record with no populated metadata fields at all. -/
def videoEmpty : Video :=
  ⟨"svc", "vid", fun _ => none⟩

/-- A cached record with every schema field of `storagePartial`
populated. -/
def videoFull : Video :=
  ⟨"svc", "vid", fun k =>
    match k with | .title => some "t" | .length => some "99" | _ => none⟩

/-- A record an adapter fetch can return: a fresh title, the duration
and a thumbnail. -/
def videoFetched : Video :=
  ⟨"svc", "vid", fun k =>
    match k with
    | .title => some "T2" | .length => some "99" | .thumbnail => some "x"
    | _ => none⟩

/-- A cached record whose mime type is outside the supported set even
though every declared schema field is present. -/
def videoBadMime : Video :=
  ⟨"svc", "vid", fun k =>
    match k with
    | .title => some "t" | .length => some "99"
    | .mime => some "video/x-unsupported"
    | _ => none⟩

/-- An adapter for service `svc` whose fetch always reports the quota
as exhausted. -/
def adapterQuota : Adapter :=
  { serviceId := "svc"
    canHandleLink := fun _ => true
    isCollectionURL := fun _ => false
    getVideoId := fun _ => "vid"
    resolveURL := fun _ => .error (.providerError "net")
    fetchVideoInfo := fun _ _ => .error Err.outOfQuota
    searchVideos := fun _ => .ok [] }

/-- An adapter for service `svc` whose fetch succeeds with
`videoFetched`. -/
def adapterOk : Adapter :=
  { adapterQuota with fetchVideoInfo := fun _ _ => .ok videoFetched }

/-- Storage whose cached record for every key is `videoPartial` and
whose schema for every service is title and duration. -/
def storagePartial : Storage :=
  { getVideoInfo := fun _ _ => .ok videoPartial
    getVideoInfoFields := fun _ => [VideoField.title, VideoField.length] }

def storageEmpty : Storage :=
  { storagePartial with getVideoInfo := fun _ _ => .ok videoEmpty }

def storageFull : Storage :=
  { storagePartial with getVideoInfo := fun _ _ => .ok videoFull }

def storageFailing : Storage :=
  { storagePartial with
    getVideoInfo := fun _ _ => .error (.storageError "down") }

/-- Quota-exhausted provider over a partially cached record. -/
def envQuotaPartial : Env :=
  ⟨[adapterQuota], storagePartial, fun _ => true, fun _ => some "host"⟩

/-- Quota-exhausted provider over an empty cached record. -/
def envQuotaEmpty : Env :=
  ⟨[adapterQuota], storageEmpty, fun _ => true, fun _ => some "host"⟩

/-- Healthy provider over a fully cached record. -/
def envFull : Env :=
  ⟨[adapterOk], storageFull, fun _ => true, fun _ => some "host"⟩

/-- Healthy provider over an empty cached record. -/
def envEmptyOk : Env :=
  ⟨[adapterOk], storageEmpty, fun _ => true, fun _ => some "host"⟩

/-- A failing cache store. -/
def envStorageFailing : Env :=
  ⟨[adapterOk], storageFailing, fun _ => true, fun _ => some "host"⟩

/-- An adapter that recognizes no URL and serves no service looked up
below, so every lookup misses. -/
def adapterNoMatch : Adapter :=
  { adapterQuota with canHandleLink := fun _ => false }

/-- Environment in which the adapter lookups find nothing. -/
def envNoMatch : Env :=
  ⟨[adapterNoMatch], storagePartial, fun _ => true, fun _ => some "host"⟩

/-- A cached record with an unsupported mime type, no supported mime
types at all, and every schema field present. -/
def envBadMime : Env :=
  ⟨[adapterOk],
    { storagePartial with getVideoInfo := fun _ _ => .ok videoBadMime },
    fun _ => false, fun _ => some "host"⟩

/-- A non-URL query environment whose search adapter returns one
record. -/
def envSearch : Env :=
  ⟨[{ adapterQuota with searchVideos := fun _ => .ok [videoPartial] }],
    storagePartial, fun _ => true, fun _ => none⟩

/-! Helper lemmas. -/

/-- Filtering a list strictly shortens it when some member fails the
predicate. -/
lemma filter_length_lt {α : Type} {p : α → Bool} :
    ∀ {l : List α} {x : α}, x ∈ l → p x = false →
      (l.filter p).length < l.length := by
  intro l
  induction l with
  | nil => intro x hx; cases hx
  | cons a l ih =>
    intro x hx hp
    rcases List.mem_cons.mp hx with rfl | hxl
    · rw [List.filter_cons_of_neg (by simp [hp])]
      exact Nat.lt_succ_of_le (List.length_filter_le _ _)
    · by_cases hpa : p a
      · rw [List.filter_cons_of_pos hpa]
        exact Nat.succ_lt_succ (ih hxl hp)
      · rw [List.filter_cons_of_neg (by simpa using hpa)]
        exact Nat.lt_succ_of_lt (ih hxl hp)

/-- Inversion of a successful cached read: the storage read succeeded
with the very record returned and the missing-field list is the filter
of the declared schema computed by the source. -/
lemma getCachedVideo_ok {env : Env} {service videoId : String}
    {v : Video} {missing : List VideoField}
    (h : getCachedVideo env service videoId = .ok (v, missing)) :
    env.storage.getVideoInfo service videoId = .ok v ∧
    missing = (env.storage.getVideoInfoFields v.service).filter
      (fun p => !(v.hasOwnProperty p)) := by
  unfold getCachedVideo at h
  cases hs : env.storage.getVideoInfo service videoId with
  | error e => rw [hs] at h; cases h
  | ok result =>
    rw [hs] at h
    dsimp only at h
    split at h
    · split at h
      · cases h
      · have h1 : result = v := congrArg Prod.fst (Except.ok.inj h)
        have h2 := congrArg Prod.snd (Except.ok.inj h)
        subst h1; subst h2
        exact ⟨rfl, rfl⟩
    · have h1 : result = v := congrArg Prod.fst (Except.ok.inj h)
      have h2 := congrArg Prod.snd (Except.ok.inj h)
      subst h1; subst h2
      exact ⟨rfl, rfl⟩

/-- Computation of the quota-degradation branch: a successful cached
read, a quota-exhausted fetch and missing fields fewer than the schema
yield the stale cached record with one fetch call and no write. -/
lemma getVideoInfo_quota_degraded {env : Env} {service videoId : String}
    {v : Video} {missing : List VideoField} {a : Adapter}
    (hc : getCachedVideo env service videoId = .ok (v, missing))
    (ha : getServiceAdapter env service = some a)
    (hf : a.fetchVideoInfo v.id missing = .error Err.outOfQuota)
    (hlt : missing.length < (env.storage.getVideoInfoFields v.service).length) :
    getVideoInfo env service videoId =
      (.ok v, ⟨[⟨a.serviceId, v.id, missing⟩], []⟩) := by
  simp only [getVideoInfo, hc, ha, arrayStrictEqZero, Bool.false_eq_true,
    if_false, hf, if_pos hlt]

/-! Theorems for the claims. -/

/-- C1: the claim says that a cached record with no missing fields is
returned unchanged with zero adapter calls.  The source tests
`missingInfo === 0`, strict equality between an array and the number 0,
which never holds, so even with an empty missing-field list the adapter
fetch runs: on `envFull` the cached read reports no missing field, yet
one `fetchVideoInfo` call is made (with an empty field list) and the
returned record gained a thumbnail the cached record did not have. -/
theorem C1_complete_cache_still_fetches :
    (getCachedVideo envFull "svc" "vid").toOption.map Prod.snd = some [] ∧
    (getVideoInfo envFull "svc" "vid").2.fetchCalls = [⟨"svc", "vid", []⟩] ∧
    (getVideoInfo envFull "svc" "vid").1.toOption.map
      (fun w => w.fields VideoField.thumbnail) = some (some "x") ∧
    videoFull.fields VideoField.thumbnail = none :=
  ⟨rfl, rfl, rfl, rfl⟩

/-- C2: when the cached record has at least one populated schema field
and the fetch of the missing fields reports the quota as exhausted,
`getVideoInfo` returns the stale cached record and raises no error. -/
theorem C2_quota_degrades_to_cached (env : Env) (service videoId : String)
    (v : Video) (missing : List VideoField) (a : Adapter)
    (hc : getCachedVideo env service videoId = .ok (v, missing))
    (ha : getServiceAdapter env service = some a)
    (hf : a.fetchVideoInfo v.id missing = .error Err.outOfQuota)
    (hsome : ∃ p ∈ env.storage.getVideoInfoFields v.service,
      v.hasOwnProperty p = true) :
    (getVideoInfo env service videoId).1 = .ok v := by
  obtain ⟨hs, hm⟩ := getCachedVideo_ok hc
  obtain ⟨p, hp, hpv⟩ := hsome
  have hlt : missing.length <
      (env.storage.getVideoInfoFields v.service).length := by
    rw [hm]
    exact filter_length_lt hp (by simp [hpv])
  rw [getVideoInfo_quota_degraded hc ha hf hlt]

/-- Witness for C2 on the concrete quota environment with a partially
cached record. -/
theorem C2_quota_degrades_to_cached_witness :
    (getVideoInfo envQuotaPartial "svc" "vid").1 = .ok videoPartial :=
  C2_quota_degrades_to_cached envQuotaPartial "svc" "vid" videoPartial
    [VideoField.length] adapterQuota rfl rfl rfl
    ⟨VideoField.title, by decide, rfl⟩

/-- C3: when no schema field of the cached record is populated, the
missing-field list is the whole schema, and a quota-exhausted fetch
makes `getVideoInfo` propagate the quota error with no record. -/
theorem C3_quota_propagates_when_nothing_cached (env : Env)
    (service videoId : String) (v : Video) (missing : List VideoField)
    (a : Adapter)
    (hc : getCachedVideo env service videoId = .ok (v, missing))
    (ha : getServiceAdapter env service = some a)
    (hf : a.fetchVideoInfo v.id missing = .error Err.outOfQuota)
    (hnone : ∀ p ∈ env.storage.getVideoInfoFields v.service,
      v.hasOwnProperty p = false) :
    getVideoInfo env service videoId =
      (.error Err.outOfQuota, ⟨[⟨a.serviceId, v.id, missing⟩], []⟩) := by
  obtain ⟨hs, hm⟩ := getCachedVideo_ok hc
  have hmiss : missing = env.storage.getVideoInfoFields v.service := by
    rw [hm]
    exact List.filter_eq_self.mpr (fun p hp => by simp [hnone p hp])
  have hnlt : ¬ missing.length <
      (env.storage.getVideoInfoFields v.service).length := by
    rw [hmiss]; exact Nat.lt_irrefl _
  simp only [getVideoInfo, hc, ha, arrayStrictEqZero, Bool.false_eq_true,
    if_false, hf, if_neg hnlt]

/-- Witness for C3 on the concrete quota environment with an empty
cached record. -/
theorem C3_quota_propagates_when_nothing_cached_witness :
    getVideoInfo envQuotaEmpty "svc" "vid" =
      (.error Err.outOfQuota,
        ⟨[⟨"svc", "vid", [VideoField.title, VideoField.length]⟩], []⟩) :=
  C3_quota_propagates_when_nothing_cached envQuotaEmpty "svc" "vid"
    videoEmpty [VideoField.title, VideoField.length] adapterQuota
    rfl rfl rfl (fun _ _ => rfl)

/-- C4: a cached record declaring a mime type outside the supported set
makes `getVideoInfo` fail with the unsupported-mime-type error, with no
fetch call and no write, whatever else the record contains. -/
theorem C4_unsupported_mime_rejected (env : Env) (service videoId : String)
    (v : Video) (m : String)
    (hs : env.storage.getVideoInfo service videoId = .ok v)
    (hm : v.fields VideoField.mime = some m)
    (hne : (m != "") = true)
    (hsup : env.isSupportedMimeType m = false) :
    getVideoInfo env service videoId =
      (.error (.unsupportedMimeType m), Trace.empty) := by
  simp [getVideoInfo, getCachedVideo, hs, hm, hne, hsup]

/-- Witness for C4: the record with every schema field present and an
unsupported mime type is rejected. -/
theorem C4_unsupported_mime_rejected_witness :
    getVideoInfo envBadMime "svc" "vid" =
      (.error (.unsupportedMimeType "video/x-unsupported"), Trace.empty) :=
  C4_unsupported_mime_rejected envBadMime "svc" "vid" videoBadMime
    "video/x-unsupported" rfl rfl rfl rfl

/-- C5: the claim says a failed adapter lookup yields a typed
unresolvable-reference error.  The source dereferences the undefined
result of `adapters.find` instead: on `envNoMatch`, whose only adapter
recognizes no URL and serves no service named `other`, the URL branch
of `resolveVideoQuery` fails calling `adapter.isCollectionURL` on
`undefined` and `searchVideos` fails calling `adapter.searchVideos` on
`undefined`, both untyped TypeErrors. -/
theorem C5_missing_adapter_crashes_untyped :
    (resolveVideoQuery envNoMatch "https://nohost.example/v" "").1 =
      .error (.typeError "adapter.isCollectionURL") ∧
    searchVideos envNoMatch "other" "q" =
      .error (.typeError "adapter.searchVideos") :=
  ⟨rfl, rfl⟩

/-- C9: an error of the cache store read propagates unchanged out of
`getVideoInfo`, with no fetch call and no write issued. -/
theorem C9_storage_error_propagates (env : Env) (service videoId : String)
    (e : Err)
    (h : env.storage.getVideoInfo service videoId = .error e) :
    getVideoInfo env service videoId = (.error e, Trace.empty) := by
  simp [getVideoInfo, getCachedVideo, h]

/-- Witness for C9 on a failing cache store. -/
theorem C9_storage_error_propagates_witness :
    getVideoInfo envStorageFailing "svc" "vid" =
      (.error (.storageError "down"), Trace.empty) :=
  C9_storage_error_propagates envStorageFailing "svc" "vid"
    (.storageError "down") rfl

/-- C10: the quota-degradation branch returns the stale cached record
without issuing any cache write, so applying the issued writes leaves
the cache store exactly as it was. -/
theorem C10_degradation_no_write (env : Env) (service videoId : String)
    (v : Video) (missing : List VideoField) (a : Adapter)
    (hc : getCachedVideo env service videoId = .ok (v, missing))
    (ha : getServiceAdapter env service = some a)
    (hf : a.fetchVideoInfo v.id missing = .error Err.outOfQuota)
    (hlt : missing.length <
      (env.storage.getVideoInfoFields v.service).length) :
    (getVideoInfo env service videoId).1 = .ok v ∧
    (getVideoInfo env service videoId).2.writes = [] ∧
    env.storage.applyTrace (getVideoInfo env service videoId).2 =
      env.storage := by
  rw [getVideoInfo_quota_degraded hc ha hf hlt]
  exact ⟨rfl, rfl, rfl⟩

/-- Witness for C10 on the concrete quota environment with a partially
cached record. -/
theorem C10_degradation_no_write_witness :
    (getVideoInfo envQuotaPartial "svc" "vid").2.writes = [] :=
  (C10_degradation_no_write envQuotaPartial "svc" "vid" videoPartial
    [VideoField.length] adapterQuota rfl rfl rfl (by decide)).2.1

/-- C6: merging a fetched record over a cached record is right-biased.
For a field both records define, the result carries the fetched value;
a field only the cached record defines keeps the cached value; a field
only the fetched record defines carries the fetched value; and a field
is present in the result exactly when it is present in at least one of
the two records, so nothing else is altered. -/
theorem C6_merge_right_biased (older newer : Video) (k : VideoField) :
    (∀ a b, older.fields k = some a → newer.fields k = some b →
      (Video.merge older newer).fields k = some b) ∧
    (∀ a, older.fields k = some a → newer.fields k = none →
      (Video.merge older newer).fields k = some a) ∧
    (∀ b, newer.fields k = some b →
      (Video.merge older newer).fields k = some b) ∧
    ((Video.merge older newer).fields k).isSome =
      ((older.fields k).isSome || (newer.fields k).isSome) := by
  refine ⟨?_, ?_, ?_, ?_⟩
  · intro a b _ hb
    simp [Video.merge, hb]
  · intro a ha hb
    simp [Video.merge, ha, hb]
  · intro b hb
    simp [Video.merge, hb]
  · cases ho : older.fields k <;> cases hn : newer.fields k <;>
      simp [Video.merge, ho, hn]

/-- Witness for C6: the fetched title overwrites the cached one. -/
theorem C6_merge_right_biased_witness :
    (Video.merge videoPartial videoFetched).fields VideoField.title =
      some "T2" :=
  (C6_merge_right_biased videoPartial videoFetched VideoField.title).1
    "t" "T2" rfl rfl

/-- C8: the claim says the second of two sequential resolutions of the
same key against a stable provider is a pure cache hit with no adapter
call.  On `envEmptyOk` the first call fetches the two missing fields
and writes the merged record back; after that write completes, the
second call still performs one `fetchVideoInfo` call (with an empty
field list), because the dead test `missingInfo === 0` again fails to
detect the now complete cache record. -/
theorem C8_second_resolve_not_cache_hit :
    (getVideoInfo envEmptyOk "svc" "vid").2.fetchCalls =
      [⟨"svc", "vid", [VideoField.title, VideoField.length]⟩] ∧
    (getVideoInfo
        (envEmptyOk.afterTrace (getVideoInfo envEmptyOk "svc" "vid").2)
        "svc" "vid").2.fetchCalls = [⟨"svc", "vid", []⟩] :=
  ⟨rfl, rfl⟩

/-- C7 counterexample: on `envQuotaPartial` the single-item URL branch
of `resolveVideoQuery` returns the stale cached record through the
quota-degradation path, and the trace of the run contains no cache
write at all, so a record is returned to the caller without having been
written back. -/
theorem C7_degraded_record_not_written :
    (resolveVideoQuery envQuotaPartial "https://svc.example/v" "").1 =
      .ok (.single videoPartial) ∧
    (resolveVideoQuery envQuotaPartial "https://svc.example/v" "").2.writes
      = [] :=
  ⟨rfl, rfl⟩

/-- Writes issued by a successful `getVideoInfo` run: either the single
returned record was upserted, or the run took the quota-degradation
path and issued nothing. -/
lemma getVideoInfo_ok_writes {env : Env} {service videoId : String}
    {v : Video} {t : Trace}
    (h : getVideoInfo env service videoId = (.ok v, t)) :
    t.writes = [WriteOp.one v] ∨
    (t.writes = [] ∧ ∃ a missing,
      getServiceAdapter env service = some a ∧
      getCachedVideo env service videoId = .ok (v, missing) ∧
      a.fetchVideoInfo v.id missing = .error Err.outOfQuota) := by
  unfold getVideoInfo at h
  cases hc : getCachedVideo env service videoId with
  | error e => rw [hc] at h; simp at h
  | ok p =>
    obtain ⟨cv, missing⟩ := p
    rw [hc] at h
    dsimp only at h
    rw [if_neg (by simp [arrayStrictEqZero])] at h
    cases ha : getServiceAdapter env service with
    | none => rw [ha] at h; simp at h
    | some a =>
      rw [ha] at h
      dsimp only at h
      cases hf : a.fetchVideoInfo cv.id missing with
      | ok fv =>
        rw [hf] at h
        dsimp only at h
        left
        injection h with h1 h2
        have hv : Video.merge cv fv = v := Except.ok.inj h1
        subst h2
        simp [updateCache, hv]
      | error e =>
        rw [hf] at h
        dsimp only at h
        cases e with
        | outOfQuota =>
          dsimp only at h
          split at h
          · right
            injection h with h1 h2
            have hv : cv = v := Except.ok.inj h1
            subst h2
            subst hv
            exact ⟨rfl, a, missing, rfl, rfl, hf⟩
          · simp at h
        | unsupportedMimeType m => simp at h
        | typeError msg => simp at h
        | unresolvableReference msg => simp at h
        | storageError msg => simp at h
        | providerError msg => simp at h

/-- C7 amended: in the collection-URL and free-text-search branches of
`resolveVideoQuery` every record of the returned batch is upserted
before the return, and in the single-item branch the returned record is
upserted before the return unless the run took the quota-degradation
path of `getVideoInfo`, in which case the stale cached record is
returned with no write issued. -/
theorem C7_writeback_amended (env : Env) (query searchService : String)
    (r : QueryResult) (t : Trace)
    (h : resolveVideoQuery env query searchService = (.ok r, t)) :
    (∀ vs, r = .batch vs → t.writes = [WriteOp.many vs]) ∧
    (∀ v, r = .single v → t.writes = [WriteOp.one v] ∨
      (t.writes = [] ∧ ∃ a0 a missing,
        getServiceAdapterForURL env query = some a0 ∧
        getServiceAdapter env a0.serviceId = some a ∧
        getCachedVideo env a0.serviceId (a0.getVideoId query) =
          .ok (v, missing) ∧
        a.fetchVideoInfo v.id missing = .error Err.outOfQuota)) := by
  unfold resolveVideoQuery at h
  split at h
  · cases ha0 : getServiceAdapterForURL env query with
    | none => rw [ha0] at h; simp at h
    | some a0 =>
      rw [ha0] at h
      dsimp only at h
      split at h
      · cases hg : getVideoInfo env a0.serviceId (a0.getVideoId query) with
        | mk res t' =>
          rw [hg] at h
          cases res with
          | ok video =>
            dsimp only at h
            injection h with h1 h2
            have hv : QueryResult.single video = r := Except.ok.inj h1
            subst h2
            subst hv
            constructor
            · intro vs hvs
              cases hvs
            · intro v hv2
              injection hv2 with h3
              subst h3
              exact (getVideoInfo_ok_writes hg).imp id
                (fun hq =>
                  ⟨hq.1, a0, hq.2.choose, hq.2.choose_spec.choose, rfl,
                    hq.2.choose_spec.choose_spec.1,
                    hq.2.choose_spec.choose_spec.2.1,
                    hq.2.choose_spec.choose_spec.2.2⟩)
          | error e =>
            dsimp only at h
            simp at h
      · cases hr : a0.resolveURL query with
        | error e => rw [hr] at h; simp at h
        | ok results =>
          rw [hr] at h
          dsimp only at h
          injection h with h1 h2
          have hv : QueryResult.batch results = r := Except.ok.inj h1
          subst h2
          subst hv
          constructor
          · intro vs hvs
            injection hvs with h3
            subst h3
            rfl
          · intro v hv2
            cases hv2
  · cases hs : searchVideos env searchService query with
    | error e => rw [hs] at h; simp at h
    | ok results =>
      rw [hs] at h
      dsimp only at h
      injection h with h1 h2
      have hv : QueryResult.batch results = r := Except.ok.inj h1
      subst h2
      subst hv
      constructor
      · intro vs hvs
        injection hvs with h3
        subst h3
        rfl
      · intro v hv2
        cases hv2

/-- Witness for C7 amended on the search branch: the batch returned by
the free-text search is upserted before the return. -/
theorem C7_writeback_amended_witness :
    (resolveVideoQuery envSearch "some search text" "svc").2.writes =
      [WriteOp.many [videoPartial]] :=
  (C7_writeback_amended envSearch "some search text" "svc"
    (.batch [videoPartial]) ⟨[], [WriteOp.many [videoPartial]]⟩ rfl).1
    [videoPartial] rfl

end InfoExtract






